import Mathlib

/-!
Verification of the RTCv2 signaling gateway (pkg/service/rtcv2service.go):
a shallow embedding of the two HTTP handlers (`handlePost` for POST /rtc/v2
and `handleParticipantPatch` for PATCH /rtc/v2/\x7bparticipant_id\x7d) together
with a model of the wire codec, and proofs of the specified properties.
External collaborators (validator, room allocator, message router, topic
formatter, RPC client) are modelled as oracle functions supplied in an
environment record; the response writer is modelled with the net/http
commit semantics (the first written status is the committed one, later
WriteHeader calls are ignored, Write commits 200 when nothing is committed).
-/

namespace RTCv2

/-! ## Data model of the wire messages (livekit.Signalv2WireMessage and friends) -/

/-- Model of livekit.ConnectRequest: the fields the gateway reads
(Metadata, ParticipantAttributes, ClientInfo). -/
structure ConnectRequest where
  metadata : String
  participantAttributes : List (String × String)
  clientInfo : String
deriving DecidableEq

/-- Model of livekit.ConnectResponse: opaque except the two sids the
handler touches. -/
structure ConnectResponse where
  roomSid : String
  participantSid : String
deriving DecidableEq

/-- The oneof payload of a Signalv2ClientMessage: the gateway interprets
only the ConnectRequest variant; every other variant is opaque and carried
here by its Go type name (what the %T verb prints). -/
inductive Signalv2ClientMessageVariant where
  | connectRequest (cr : ConnectRequest)
  | other (typeName : String)
deriving DecidableEq

/-- Model of livekit.Signalv2ClientMessage: a proto message whose oneof
may be unset (GetMessage returns nil). -/
structure Signalv2ClientMessage where
  message : Option Signalv2ClientMessageVariant
deriving DecidableEq

/-- The oneof payload of a Signalv2ServerMessage. -/
inductive Signalv2ServerMessageVariant where
  | connectResponse (cr : ConnectResponse)
  | other (typeName : String)
deriving DecidableEq

/-- Model of livekit.Signalv2ServerMessage. -/
structure Signalv2ServerMessage where
  message : Option Signalv2ServerMessageVariant
deriving DecidableEq

/-- Model of livekit.Fragment: an opaque continuation payload. -/
structure Fragment where
  data : List Nat
deriving DecidableEq

/-- Model of livekit.Envelope: ordered client and server message lists. -/
structure Envelope where
  clientMessages : List Signalv2ClientMessage
  serverMessages : List Signalv2ServerMessage
deriving DecidableEq

/-- The oneof payload of the top level wire message. -/
inductive Signalv2WireMessageVariant where
  | envelope (e : Envelope)
  | fragment (f : Fragment)
deriving DecidableEq

/-- Model of livekit.Signalv2WireMessage: the top level oneof may be unset,
which is what an empty body unmarshals to. -/
structure Signalv2WireMessage where
  message : Option Signalv2WireMessageVariant
deriving DecidableEq

/-! ## Wire codec

Modelled from the spec: the Wire Codec (proto.Marshal / proto.Unmarshal of
livekit.Signalv2WireMessage, provided by the livekit protocol package which
is not under src/). Encoding is total; each tagged union is encoded with a
single discriminant; an unset top level oneof encodes to the empty byte
sequence, mirroring the proto encoding of an empty message. -/

/-- Bytes of an encoded string: length followed by the character codes. -/
def encodeString (s : String) : List Nat :=
  s.data.length :: s.data.map Char.toNat

/-- Take exactly `n` leading bytes, returning them and the remainder. -/
def decodeTake : Nat → List Nat → Option (List Nat × List Nat)
  | 0, l => some ([], l)
  | _ + 1, [] => none
  | n + 1, b :: l =>
    match decodeTake n l with
    | some (xs, rest) => some (b :: xs, rest)
    | none => none

/-- Decode a length prefixed string from a byte stream. -/
def decodeString (l : List Nat) : Option (String × List Nat) :=
  match l with
  | [] => none
  | n :: rest =>
    match decodeTake n rest with
    | some (cs, rest1) => some (String.mk (cs.map Char.ofNat), rest1)
    | none => none

theorem decodeTake_append (xs rest : List Nat) :
    decodeTake xs.length (xs ++ rest) = some (xs, rest) := by
  induction xs with
  | nil => rfl
  | cons x xs ih => simp [decodeTake, ih]

theorem decodeString_encodeString (s : String) (rest : List Nat) :
    decodeString (encodeString s ++ rest) = some (s, rest) := by
  have h1 : decodeTake s.data.length (s.data.map Char.toNat ++ rest)
      = some (s.data.map Char.toNat, rest) := by
    have h := decodeTake_append (s.data.map Char.toNat) rest
    rwa [List.length_map] at h
  have h2 : (s.data.map Char.toNat).map Char.ofNat = s.data := by
    rw [List.map_map]
    simp only [Function.comp_def, Char.ofNat_toNat, List.map_id_fun', id]
  show decodeString (s.data.length :: (s.data.map Char.toNat ++ rest)) = some (s, rest)
  simp only [decodeString, h1, h2]

/-- Bytes of an encoded pair of strings. -/
def encodeStringPair (p : String × String) : List Nat :=
  encodeString p.1 ++ encodeString p.2

/-- Decode a pair of strings. -/
def decodeStringPair (l : List Nat) : Option ((String × String) × List Nat) :=
  match decodeString l with
  | some (a, l1) =>
    match decodeString l1 with
    | some (b, l2) => some ((a, b), l2)
    | none => none
  | none => none

theorem decodeStringPair_encodeStringPair (p : String × String) (rest : List Nat) :
    decodeStringPair (encodeStringPair p ++ rest) = some (p, rest) := by
  obtain ⟨a, b⟩ := p
  simp [encodeStringPair, decodeStringPair, List.append_assoc, decodeString_encodeString]

/-- Concatenated encodings of the elements of a list. -/
def encodeListWith (enc : α → List Nat) : List α → List Nat
  | [] => []
  | x :: xs => enc x ++ encodeListWith enc xs

/-- Decode exactly `n` consecutive elements with the given element decoder. -/
def decodeListWith (dec : List Nat → Option (α × List Nat)) :
    Nat → List Nat → Option (List α × List Nat)
  | 0, l => some ([], l)
  | n + 1, l =>
    match dec l with
    | some (x, l1) =>
      match decodeListWith dec n l1 with
      | some (xs, l2) => some (x :: xs, l2)
      | none => none
    | none => none

theorem decodeListWith_encodeListWith {α : Type} (dec : List Nat → Option (α × List Nat))
    (enc : α → List Nat) (h : ∀ x rest, dec (enc x ++ rest) = some (x, rest))
    (xs : List α) (rest : List Nat) :
    decodeListWith dec xs.length (encodeListWith enc xs ++ rest) = some (xs, rest) := by
  induction xs with
  | nil => rfl
  | cons x xs ih => simp [encodeListWith, decodeListWith, List.append_assoc, h, ih]

/-- A counted list: length followed by the concatenated element encodings. -/
def encodeListC (enc : α → List Nat) (xs : List α) : List Nat :=
  xs.length :: encodeListWith enc xs

/-- Decode a counted list. -/
def decodeListC (dec : List Nat → Option (α × List Nat)) (l : List Nat) :
    Option (List α × List Nat) :=
  match l with
  | [] => none
  | n :: rest => decodeListWith dec n rest

theorem decodeListC_encodeListC {α : Type} (dec : List Nat → Option (α × List Nat))
    (enc : α → List Nat) (h : ∀ x rest, dec (enc x ++ rest) = some (x, rest))
    (xs : List α) (rest : List Nat) :
    decodeListC dec (encodeListC enc xs ++ rest) = some (xs, rest) := by
  simp [encodeListC, decodeListC, decodeListWith_encodeListWith dec enc h]

/-- Bytes of an encoded ConnectRequest. -/
def encodeConnectRequest (cr : ConnectRequest) : List Nat :=
  encodeString cr.metadata ++ encodeListC encodeStringPair cr.participantAttributes
    ++ encodeString cr.clientInfo

/-- Decode a ConnectRequest. -/
def decodeConnectRequest (l : List Nat) : Option (ConnectRequest × List Nat) :=
  match decodeString l with
  | some (m, l1) =>
    match decodeListC decodeStringPair l1 with
    | some (attrs, l2) =>
      match decodeString l2 with
      | some (ci, l3) =>
        some ({ metadata := m, participantAttributes := attrs, clientInfo := ci }, l3)
      | none => none
    | none => none
  | none => none

theorem decodeConnectRequest_encodeConnectRequest (cr : ConnectRequest) (rest : List Nat) :
    decodeConnectRequest (encodeConnectRequest cr ++ rest) = some (cr, rest) := by
  obtain ⟨m, attrs, ci⟩ := cr
  simp [encodeConnectRequest, decodeConnectRequest, List.append_assoc,
    decodeString_encodeString,
    decodeListC_encodeListC decodeStringPair encodeStringPair
      decodeStringPair_encodeStringPair]

/-- Bytes of an encoded ConnectResponse. -/
def encodeConnectResponse (cr : ConnectResponse) : List Nat :=
  encodeString cr.roomSid ++ encodeString cr.participantSid

/-- Decode a ConnectResponse. -/
def decodeConnectResponse (l : List Nat) : Option (ConnectResponse × List Nat) :=
  match decodeString l with
  | some (a, l1) =>
    match decodeString l1 with
    | some (b, l2) => some ({ roomSid := a, participantSid := b }, l2)
    | none => none
  | none => none

theorem decodeConnectResponse_encodeConnectResponse (cr : ConnectResponse) (rest : List Nat) :
    decodeConnectResponse (encodeConnectResponse cr ++ rest) = some (cr, rest) := by
  obtain ⟨a, b⟩ := cr
  simp [encodeConnectResponse, decodeConnectResponse, List.append_assoc,
    decodeString_encodeString]

/-- Bytes of an encoded client message: discriminant then payload. -/
def encodeClientMessage (m : Signalv2ClientMessage) : List Nat :=
  match m.message with
  | none => [0]
  | some (.connectRequest cr) => 1 :: encodeConnectRequest cr
  | some (.other t) => 2 :: encodeString t

/-- Decode a client message. -/
def decodeClientMessage (l : List Nat) : Option (Signalv2ClientMessage × List Nat) :=
  match l with
  | 0 :: rest => some (⟨none⟩, rest)
  | 1 :: rest =>
    match decodeConnectRequest rest with
    | some (cr, l1) => some (⟨some (.connectRequest cr)⟩, l1)
    | none => none
  | 2 :: rest =>
    match decodeString rest with
    | some (t, l1) => some (⟨some (.other t)⟩, l1)
    | none => none
  | _ => none

theorem decodeClientMessage_encodeClientMessage (m : Signalv2ClientMessage) (rest : List Nat) :
    decodeClientMessage (encodeClientMessage m ++ rest) = some (m, rest) := by
  obtain ⟨mv⟩ := m
  match mv with
  | none => rfl
  | some (.connectRequest cr) =>
    simp [encodeClientMessage, decodeClientMessage,
      decodeConnectRequest_encodeConnectRequest]
  | some (.other t) =>
    simp [encodeClientMessage, decodeClientMessage, decodeString_encodeString]

/-- Bytes of an encoded server message: discriminant then payload. -/
def encodeServerMessage (m : Signalv2ServerMessage) : List Nat :=
  match m.message with
  | none => [0]
  | some (.connectResponse cr) => 1 :: encodeConnectResponse cr
  | some (.other t) => 2 :: encodeString t

/-- Decode a server message. -/
def decodeServerMessage (l : List Nat) : Option (Signalv2ServerMessage × List Nat) :=
  match l with
  | 0 :: rest => some (⟨none⟩, rest)
  | 1 :: rest =>
    match decodeConnectResponse rest with
    | some (cr, l1) => some (⟨some (.connectResponse cr)⟩, l1)
    | none => none
  | 2 :: rest =>
    match decodeString rest with
    | some (t, l1) => some (⟨some (.other t)⟩, l1)
    | none => none
  | _ => none

theorem decodeServerMessage_encodeServerMessage (m : Signalv2ServerMessage) (rest : List Nat) :
    decodeServerMessage (encodeServerMessage m ++ rest) = some (m, rest) := by
  obtain ⟨mv⟩ := m
  match mv with
  | none => rfl
  | some (.connectResponse cr) =>
    simp [encodeServerMessage, decodeServerMessage,
      decodeConnectResponse_encodeConnectResponse]
  | some (.other t) =>
    simp [encodeServerMessage, decodeServerMessage, decodeString_encodeString]

/-- Bytes of an encoded fragment: payload length then payload. -/
def encodeFragment (f : Fragment) : List Nat :=
  f.data.length :: f.data

/-- Decode a fragment. -/
def decodeFragment (l : List Nat) : Option (Fragment × List Nat) :=
  match l with
  | [] => none
  | n :: rest =>
    match decodeTake n rest with
    | some (d, l1) => some (⟨d⟩, l1)
    | none => none

theorem decodeFragment_encodeFragment (f : Fragment) (rest : List Nat) :
    decodeFragment (encodeFragment f ++ rest) = some (f, rest) := by
  obtain ⟨d⟩ := f
  simp [encodeFragment, decodeFragment, decodeTake_append]

/-- Bytes of an encoded envelope: the two counted message lists. -/
def encodeEnvelope (e : Envelope) : List Nat :=
  encodeListC encodeClientMessage e.clientMessages
    ++ encodeListC encodeServerMessage e.serverMessages

/-- Decode an envelope. -/
def decodeEnvelope (l : List Nat) : Option (Envelope × List Nat) :=
  match decodeListC decodeClientMessage l with
  | some (cs, l1) =>
    match decodeListC decodeServerMessage l1 with
    | some (ss, l2) => some ({ clientMessages := cs, serverMessages := ss }, l2)
    | none => none
  | none => none

theorem decodeEnvelope_encodeEnvelope (e : Envelope) (rest : List Nat) :
    decodeEnvelope (encodeEnvelope e ++ rest) = some (e, rest) := by
  obtain ⟨cs, ss⟩ := e
  simp [encodeEnvelope, decodeEnvelope, List.append_assoc,
    decodeListC_encodeListC decodeClientMessage encodeClientMessage
      decodeClientMessage_encodeClientMessage,
    decodeListC_encodeListC decodeServerMessage encodeServerMessage
      decodeServerMessage_encodeServerMessage]

/-- Encode a top level wire message; an unset oneof encodes to no bytes. -/
def encodeWireMessage (m : Signalv2WireMessage) : List Nat :=
  match m.message with
  | none => []
  | some (.envelope e) => 1 :: encodeEnvelope e
  | some (.fragment f) => 2 :: encodeFragment f

/-- Decode a complete body into a wire message, requiring full consumption;
the empty body decodes to the message with no variant set. -/
def decodeWireMessage (l : List Nat) : Option Signalv2WireMessage :=
  match l with
  | [] => some ⟨none⟩
  | 1 :: rest =>
    match decodeEnvelope rest with
    | some (e, []) => some ⟨some (.envelope e)⟩
    | _ => none
  | 2 :: rest =>
    match decodeFragment rest with
    | some (f, []) => some ⟨some (.fragment f)⟩
    | _ => none
  | _ => none

/-! ## Response writer model

The net/http ResponseWriter commit semantics: the first WriteHeader (or the
implicit 200 committed by the first Write) fixes the status; later
WriteHeader calls are superfluous and ignored; every Write appends to the
body. Body content is recorded as a list of chunks so that the protobuf
payloads and the JSON error bodies the handlers emit stay distinguishable. -/

/-- One chunk of response body: either raw protobuf bytes written with
Write, or one JSON error document written by HandleErrorJson. -/
inductive RespChunk where
  | proto (bytes : List Nat)
  | errorJson (code : Nat) (message : String)
deriving DecidableEq

/-- The observable state of the response writer. -/
structure HttpResponse where
  status : Option Nat := none
  headers : List (String × String) := []
  chunks : List RespChunk := []
deriving DecidableEq

/-- WriteHeader: commits the status only if none is committed yet. -/
def writeHeader (code : Nat) (w : HttpResponse) : HttpResponse :=
  match w.status with
  | some _ => w
  | none => { w with status := some code }

/-- Write: commits 200 if nothing is committed, then appends body bytes. -/
def write (bytes : List Nat) (w : HttpResponse) : HttpResponse :=
  let w1 := writeHeader 200 w
  { w1 with chunks := w1.chunks ++ [RespChunk.proto bytes] }

/-- Header().Add on the response writer. -/
def addHeader (k v : String) (w : HttpResponse) : HttpResponse :=
  { w with headers := w.headers ++ [(k, v)] }

/-- Modelled from the spec: the generic internal-error message that
HandleErrorJson (pkg/service, not under src/) substitutes when it is handed
a nil error. -/
def genericInternalErrorMessage : String := "internal error"

/-- Modelled from the spec: HandleErrorJson (pkg/service, not under src/)
writes the given status and one JSON error body carrying the status code
and the error text; a nil error (here `none`) is replaced by the generic
internal-error message. -/
def handleErrorJson (code : Nat) (err : Option String) (w : HttpResponse) : HttpResponse :=
  let w1 := writeHeader code w
  { w1 with chunks := w1.chunks ++ [RespChunk.errorJson code (err.getD genericInternalErrorMessage)] }

/-! ## Error message texts from rtcv2service.go and its collaborators -/

/-- errFragmentsInHTTP from rtcv2service.go. -/
def errFragmentsInHTTP : String := "should not get fragments via HTTP request"

/-- The text built by fmt.Errorf from errUnknownMessageType and the %T verb
applied to the unexpected client message variant. -/
def errUnknownMessageTypeMsg (typeName : String) : String :=
  "unknown message type, message: " ++ typeName

/-- What the %T verb prints for the value carried in the client message
oneof: the Go wrapper type name for ConnectRequest, the stored type name
for opaque variants, and nil for an unset oneof. -/
def clientMessageTypeName : Option Signalv2ClientMessageVariant → String
  | none => "<nil>"
  | some (.connectRequest _) => "*livekit.Signalv2ClientMessage_ConnectRequest"
  | some (.other t) => t

/-- The text built by fmt.Errorf for an unsupported content-type. -/
def unsupportedContentTypeMsg (ct : String) : String :=
  "unsupported content-type: " ++ ct

/-- The text built by fmt.Errorf when reading the request body fails,
wrapping the underlying read error text. -/
def couldNotReadBodyMsg (e : String) : String :=
  "could not read request body: " ++ e

/-- The text built by fmt.Errorf when proto.Unmarshal fails; the wrapped
proto error text is not modelled. -/
def couldNotUnmarshalMsg : String := "could not unmarshal request"

/-- Modelled from the spec: rtc.ErrPermissionDenied (pkg/rtc, not under
src/), the 401 error for a missing grant set or missing video grant. -/
def errPermissionDenied : String := "permissions denied"

/-- Modelled from the spec: ErrNoRoomName (pkg/service, not under src/). -/
def errNoRoomName : String := "no room name"

/-- Modelled from the spec: ErrIdentityEmpty (pkg/service, not under src/). -/
def errIdentityEmpty : String := "identity is empty"

/-- Modelled from the spec: ErrParticipantSidEmpty (pkg/service, not under
src/). -/
def errParticipantSidEmpty : String := "participant sid is empty"

/-! ## Connect endpoint (handlePost) -/

/-- Model of auth.ClaimGrants: the gateway reads only Identity and,
on the participant endpoint, whether the Video grant is present. -/
structure VideoGrant where
  room : String
deriving DecidableEq

/-- Model of auth.ClaimGrants. -/
structure ClaimGrants where
  identity : String
  video : Option VideoGrant := none
deriving DecidableEq

/-- The result of ValidateConnectRequest: grants, the resolved room name
and an opaque room-creation directive. -/
structure ValidationResult where
  grants : ClaimGrants
  roomName : String
  createRoomRequest : String
deriving DecidableEq

/-- Model of rpc.RelaySignalv2ConnectRequest. -/
structure RelaySignalv2ConnectRequest where
  grantsJson : String
  createRoom : String
  connectRequest : ConnectRequest
deriving DecidableEq

/-- The external collaborators of handlePost, as oracle functions:
ValidateConnectRequest (receives the metadata and participant attributes of
the connect request), json.Marshal of the grant set, AugmentClientInfo,
roomAllocator.SelectRoomNode, and
router.HandleParticipantConnectRequest (whose result is read through its
ConnectResponse field). -/
structure ConnectEnv where
  validateConnectRequest :
    String → List (String × String) → Except (Nat × String) ValidationResult
  marshalGrants : ClaimGrants → Except String String
  augmentClientInfo : String → String
  selectRoomNode : String → Except String Unit
  handleParticipantConnectRequest :
    String → String → RelaySignalv2ConnectRequest → Except String ConnectResponse

/-- Embedding of RTCv2Service.validateInternal: run the validator, marshal
the grants (500 on failure), augment the client info and build the relay
connect request. Returns the room name, the participant identity and the
relay request. -/
def validateInternal (env : ConnectEnv) (connectRequest : ConnectRequest) :
    Except (Nat × String) (String × String × RelaySignalv2ConnectRequest) :=
  match env.validateConnectRequest connectRequest.metadata
      connectRequest.participantAttributes with
  | .error ce => .error ce
  | .ok res =>
    match env.marshalGrants res.grants with
    | .error e => .error (500, e)
    | .ok grantsJson =>
      .ok (res.roomName, res.grants.identity,
        { grantsJson := grantsJson
          createRoom := res.createRoomRequest
          connectRequest :=
            { connectRequest with
              clientInfo := env.augmentClientInfo connectRequest.clientInfo } })

/-- The wire message handlePost builds around a connect response: a fresh
envelope holding a single server message. -/
def connectResponseWireMessage (cr : ConnectResponse) : Signalv2WireMessage :=
  ⟨some (.envelope ⟨[], [⟨some (.connectResponse cr)⟩]⟩)⟩

/-- Embedding of the for-loop over envelope.GetClientMessages() in
handlePost. The boolean is true when the loop body executed a return
statement (so the trailing w.WriteHeader(http.StatusOK) is skipped).
The default branch of the type switch calls HandleErrorJson without
returning, so iteration continues with the next message; the successful
connect branch also falls through to the next message. -/
def processClientMessages (env : ConnectEnv) :
    List Signalv2ClientMessage → HttpResponse → HttpResponse × Bool
  | [], w => (w, false)
  | msg :: rest, w =>
    match msg.message with
    | some (.connectRequest cr) =>
      (match validateInternal env cr with
      | .error (code, e) => (handleErrorJson code (some e) w, true)
      | .ok (roomName, participantIdentity, rscr) =>
        match env.selectRoomNode roomName with
        | .error e => (handleErrorJson 500 (some e) w, true)
        | .ok _ =>
          match env.handleParticipantConnectRequest roomName participantIdentity rscr with
          | .error e => (handleErrorJson 500 (some e) w, true)
          | .ok resp =>
            let marshalled := encodeWireMessage (connectResponseWireMessage resp)
            processClientMessages env rest
              (write marshalled (addHeader "Content-type" "application/x-protobuf" w)))
    | mv =>
      processClientMessages env rest
        (handleErrorJson 400 (some (errUnknownMessageTypeMsg (clientMessageTypeName mv))) w)

/-- Events recording whether the handler read and decoded the body. -/
inductive Event where
  | readBody
  | unmarshal
deriving DecidableEq

/-- A POST /rtc/v2 request: the content-type header and the outcome of
reading the body (an error models an io failure in ioutil.ReadAll). -/
structure PostRequest where
  contentType : String
  body : Except String (List Nat)

/-- Embedding of RTCv2Service.handlePost. Returns the final response
writer state and the trace of body read / decode events. proto.Marshal of
the response wire message is the total model encoder, so its error branch
is unreachable here. -/
def handlePost (env : ConnectEnv) (req : PostRequest) : HttpResponse × List Event :=
  if req.contentType ≠ "application/x-protobuf" then
    (handleErrorJson 400 (some (unsupportedContentTypeMsg req.contentType)) {}, [])
  else
    match req.body with
    | .error e => (handleErrorJson 400 (some (couldNotReadBodyMsg e)) {}, [.readBody])
    | .ok body =>
      match decodeWireMessage body with
      | none => (handleErrorJson 400 (some couldNotUnmarshalMsg) {}, [.readBody, .unmarshal])
      | some wireMessage =>
        match wireMessage.message with
        | some (.envelope envl) =>
          (match processClientMessages env envl.clientMessages {} with
          | (w, true) => (w, [.readBody, .unmarshal])
          | (w, false) => (writeHeader 200 w, [.readBody, .unmarshal]))
        | some (.fragment _) =>
          (handleErrorJson 400 (some errFragmentsInHTTP) {}, [.readBody, .unmarshal])
        | none => (writeHeader 200 {}, [.readBody, .unmarshal])

/-! ## Participant endpoint (handleParticipantPatch) -/

/-- Model of rpc.RelaySignalv2ParticipantRequest. -/
structure RelaySignalv2ParticipantRequest where
  room : String
  participantIdentity : String
  participantId : String
  wireMessage : Signalv2WireMessage
deriving DecidableEq

/-- Model of rpc.RelaySignalv2ParticipantResponse. -/
structure RelaySignalv2ParticipantResponse where
  wireMessage : Signalv2WireMessage
deriving DecidableEq

/-- The psrpc error codes the handler distinguishes; every code other than
NotFound and InvalidArgument falls into the default branch. -/
inductive PsrpcErrorCode where
  | notFound
  | invalidArgument
  | other (name : String)
deriving DecidableEq

/-- An RPC failure: either a psrpc.Error (errors.As succeeds) carrying a
code and its Error() text, or an untyped error. -/
inductive RpcFailure where
  | typed (code : PsrpcErrorCode) (message : String)
  | untyped
deriving DecidableEq

/-- The external collaborators of handleParticipantPatch:
topicFormatter.ParticipantTopic and
signalv2ParticipantClient.RelaySignalv2Participant. -/
structure PatchEnv where
  participantTopic : String → String → String
  relaySignalv2Participant :
    String → RelaySignalv2ParticipantRequest →
      Except RpcFailure RelaySignalv2ParticipantResponse

/-- A PATCH /rtc/v2/\x7bparticipant_id\x7d request: content-type header, the
grant set attached to the request context (GetGrants), the outcome of
EnsureJoinPermission on that context, the participant_id path value, and
the outcome of reading the body. -/
structure PatchRequest where
  contentType : String
  grants : Option ClaimGrants
  joinPermission : Except String String
  pathParticipantId : String
  body : Except String (List Nat)

/-- Embedding of RTCv2Service.handleParticipantPatch. -/
def handleParticipantPatch (env : PatchEnv) (req : PatchRequest) :
    HttpResponse × List Event :=
  if req.contentType ≠ "application/x-protobuf" then
    (handleErrorJson 400 (some (unsupportedContentTypeMsg req.contentType)) {}, [])
  else
    match req.grants with
    | none => (handleErrorJson 401 (some errPermissionDenied) {}, [])
    | some claims =>
      match claims.video with
      | none => (handleErrorJson 401 (some errPermissionDenied) {}, [])
      | some _ =>
        match req.joinPermission with
        | .error e => (handleErrorJson 401 (some e) {}, [])
        | .ok roomName =>
          if roomName = "" then
            (handleErrorJson 401 (some errNoRoomName) {}, [])
          else
            if claims.identity = "" then
              (handleErrorJson 401 (some errIdentityEmpty) {}, [])
            else
              if req.pathParticipantId = "" then
                (handleErrorJson 400 (some errParticipantSidEmpty) {}, [])
              else
                match req.body with
                | .error e =>
                  (handleErrorJson 400 (some (couldNotReadBodyMsg e)) {}, [.readBody])
                | .ok body =>
                  match decodeWireMessage body with
                  | none =>
                    (handleErrorJson 400 (some couldNotUnmarshalMsg) {},
                      [.readBody, .unmarshal])
                  | some wireMessage =>
                    match env.relaySignalv2Participant
                        (env.participantTopic roomName claims.identity)
                        { room := roomName
                          participantIdentity := claims.identity
                          participantId := req.pathParticipantId
                          wireMessage := wireMessage } with
                    | .error (.typed .notFound msg) =>
                      (handleErrorJson 404 (some msg) {}, [.readBody, .unmarshal])
                    | .error (.typed .invalidArgument msg) =>
                      (handleErrorJson 400 (some msg) {}, [.readBody, .unmarshal])
                    | .error (.typed (.other _) msg) =>
                      (handleErrorJson 500 (some msg) {}, [.readBody, .unmarshal])
                    | .error .untyped =>
                      (handleErrorJson 500 none {}, [.readBody, .unmarshal])
                    | .ok res =>
                      let marshalled := encodeWireMessage res.wireMessage
                      let w := write marshalled
                        (addHeader "Content-type" "application/x-protobuf" {})
                      (writeHeader 200 w, [.readBody, .unmarshal])

/-! ## Helper lemmas -/

theorem handleErrorJson_some_empty (code : Nat) (msg : String) :
    handleErrorJson code (some msg) ({} : HttpResponse) =
      { status := some code, headers := [], chunks := [RespChunk.errorJson code msg] } := rfl

theorem handleErrorJson_none_empty (code : Nat) :
    handleErrorJson code none ({} : HttpResponse) =
      { status := some code, headers := [],
        chunks := [RespChunk.errorJson code genericInternalErrorMessage] } := rfl

/-! ## Claims about the connect endpoint -/

/-- Claim C9: for every well-formed in-memory wire message, decoding the
bytes produced by encoding it yields the message back. -/
theorem c9_wire_codec_roundtrip (m : Signalv2WireMessage) :
    decodeWireMessage (encodeWireMessage m) = some m := by
  obtain ⟨mv⟩ := m
  match mv with
  | none => rfl
  | some (.envelope e) =>
    have h := decodeEnvelope_encodeEnvelope e []
    rw [List.append_nil] at h
    simp [encodeWireMessage, decodeWireMessage, h]
  | some (.fragment f) =>
    have h := decodeFragment_encodeFragment f []
    rw [List.append_nil] at h
    simp [encodeWireMessage, decodeWireMessage, h]

/-- Claim C4: a connect-endpoint request with the protobuf content-type
whose body decodes to a top-level Fragment is answered 400 with the
FragmentsNotAllowed error, for every fragment payload. -/
theorem c4_fragment_rejected (env : ConnectEnv) (req : PostRequest)
    (body : List Nat) (f : Fragment)
    (hct : req.contentType = "application/x-protobuf")
    (hb : req.body = .ok body)
    (hdec : decodeWireMessage body = some ⟨some (.fragment f)⟩) :
    handlePost env req =
      ({ status := some 400, headers := [],
         chunks := [RespChunk.errorJson 400 errFragmentsInHTTP] },
        [Event.readBody, Event.unmarshal]) := by
  simp [handlePost, hct, hb, hdec, handleErrorJson_some_empty]

/-- Witness for c4_fragment_rejected at a concrete fragment body. -/
theorem c4_fragment_rejected_witness :
    handlePost
      { validateConnectRequest := fun _ _ => .error (401, "unused")
        marshalGrants := fun _ => .ok "gj"
        augmentClientInfo := fun s => s
        selectRoomNode := fun _ => .ok ()
        handleParticipantConnectRequest := fun _ _ _ =>
          .ok { roomSid := "RM", participantSid := "PA" } }
      { contentType := "application/x-protobuf"
        body := .ok (encodeWireMessage ⟨some (.fragment ⟨[7, 8]⟩)⟩) } =
      ({ status := some 400, headers := [],
         chunks := [RespChunk.errorJson 400 errFragmentsInHTTP] },
        [Event.readBody, Event.unmarshal]) := by
  exact c4_fragment_rejected _ _ (encodeWireMessage ⟨some (.fragment ⟨[7, 8]⟩)⟩)
    ⟨[7, 8]⟩ rfl rfl (by decide)

/-- Claim C8: a connect-endpoint envelope whose sole client message is any
variant other than ConnectRequest is answered 400 with the
UnknownMessageType error naming the unexpected variant. -/
theorem c8_unknown_sole_message_rejected (env : ConnectEnv) (req : PostRequest)
    (body : List Nat) (mv : Option Signalv2ClientMessageVariant)
    (srv : List Signalv2ServerMessage)
    (hct : req.contentType = "application/x-protobuf")
    (hb : req.body = .ok body)
    (hdec : decodeWireMessage body = some ⟨some (.envelope ⟨[⟨mv⟩], srv⟩)⟩)
    (hnot : ∀ cr, mv ≠ some (.connectRequest cr)) :
    handlePost env req =
      ({ status := some 400, headers := [],
         chunks := [RespChunk.errorJson 400
           (errUnknownMessageTypeMsg (clientMessageTypeName mv))] },
        [Event.readBody, Event.unmarshal]) := by
  match mv, hnot with
  | none, _ =>
    simp [handlePost, hct, hb, hdec, processClientMessages,
      handleErrorJson_some_empty, writeHeader]
  | some (.other t), _ =>
    simp [handlePost, hct, hb, hdec, processClientMessages,
      handleErrorJson_some_empty, writeHeader]
  | some (.connectRequest cr), h => exact absurd rfl (h cr)

/-- Witness for c8_unknown_sole_message_rejected at a concrete opaque
variant. -/
theorem c8_unknown_sole_message_rejected_witness :
    handlePost
      { validateConnectRequest := fun _ _ => .error (401, "unused")
        marshalGrants := fun _ => .ok "gj"
        augmentClientInfo := fun s => s
        selectRoomNode := fun _ => .ok ()
        handleParticipantConnectRequest := fun _ _ _ =>
          .ok { roomSid := "RM", participantSid := "PA" } }
      { contentType := "application/x-protobuf"
        body := .ok (encodeWireMessage
          ⟨some (.envelope ⟨[⟨some (.other "livekit.Foo")⟩], []⟩)⟩) } =
      ({ status := some 400, headers := [],
         chunks := [RespChunk.errorJson 400
           (errUnknownMessageTypeMsg "livekit.Foo")] },
        [Event.readBody, Event.unmarshal]) := by
  exact c8_unknown_sole_message_rejected _ _
    (encodeWireMessage ⟨some (.envelope ⟨[⟨some (.other "livekit.Foo")⟩], []⟩)⟩)
    (some (.other "livekit.Foo")) [] rfl rfl (by decide) (by intro cr h; cases h)

/-- Claim C10: with the protobuf content-type, a body that decodes to a
wire message with no variant set (for example the empty body), or to an
envelope with zero client messages, is answered 200 with an empty body and
no error. -/
theorem c10_no_variant_or_empty_envelope_ok (env : ConnectEnv) (req : PostRequest)
    (body : List Nat)
    (hct : req.contentType = "application/x-protobuf")
    (hb : req.body = .ok body) :
    (decodeWireMessage body = some ⟨none⟩ →
      handlePost env req =
        ({ status := some 200, headers := [], chunks := [] },
          [Event.readBody, Event.unmarshal])) ∧
    (∀ srv, decodeWireMessage body = some ⟨some (.envelope ⟨[], srv⟩)⟩ →
      handlePost env req =
        ({ status := some 200, headers := [], chunks := [] },
          [Event.readBody, Event.unmarshal])) := by
  constructor
  · intro hdec
    simp [handlePost, hct, hb, hdec, writeHeader]
  · intro srv hdec
    simp [handlePost, hct, hb, hdec, processClientMessages, writeHeader]

/-- Witness for c10_no_variant_or_empty_envelope_ok: the empty body and an
envelope with no client messages. -/
theorem c10_no_variant_or_empty_envelope_ok_witness :
    handlePost
      { validateConnectRequest := fun _ _ => .error (401, "unused")
        marshalGrants := fun _ => .ok "gj"
        augmentClientInfo := fun s => s
        selectRoomNode := fun _ => .ok ()
        handleParticipantConnectRequest := fun _ _ _ =>
          .ok { roomSid := "RM", participantSid := "PA" } }
      { contentType := "application/x-protobuf", body := .ok [] } =
      ({ status := some 200, headers := [], chunks := [] },
        [Event.readBody, Event.unmarshal]) ∧
    handlePost
      { validateConnectRequest := fun _ _ => .error (401, "unused")
        marshalGrants := fun _ => .ok "gj"
        augmentClientInfo := fun s => s
        selectRoomNode := fun _ => .ok ()
        handleParticipantConnectRequest := fun _ _ _ =>
          .ok { roomSid := "RM", participantSid := "PA" } }
      { contentType := "application/x-protobuf"
        body := .ok (encodeWireMessage
          ⟨some (.envelope ⟨[], [⟨some (.other "livekit.Bar")⟩]⟩)⟩) } =
      ({ status := some 200, headers := [], chunks := [] },
        [Event.readBody, Event.unmarshal]) := by
  constructor
  · exact (c10_no_variant_or_empty_envelope_ok _ _ [] rfl rfl).1 rfl
  · exact (c10_no_variant_or_empty_envelope_ok _ _
      (encodeWireMessage ⟨some (.envelope ⟨[], [⟨some (.other "livekit.Bar")⟩]⟩)⟩)
      rfl rfl).2 [⟨some (.other "livekit.Bar")⟩] (by decide)

/-- Claim C5: on either endpoint, a content-type other than exactly
application/x-protobuf is answered 400 and the body is neither read nor
decoded (the event trace is empty and the response does not depend on the
body or on any collaborator). -/
theorem c5_content_type_gate (cenv : ConnectEnv) (penv : PatchEnv)
    (preq : PostRequest) (qreq : PatchRequest)
    (h1 : preq.contentType ≠ "application/x-protobuf")
    (h2 : qreq.contentType ≠ "application/x-protobuf") :
    handlePost cenv preq =
      ({ status := some 400, headers := [],
         chunks := [RespChunk.errorJson 400 (unsupportedContentTypeMsg preq.contentType)] },
        []) ∧
    handleParticipantPatch penv qreq =
      ({ status := some 400, headers := [],
         chunks := [RespChunk.errorJson 400 (unsupportedContentTypeMsg qreq.contentType)] },
        []) := by
  constructor
  · simp [handlePost, h1, handleErrorJson_some_empty]
  · simp [handleParticipantPatch, h2, handleErrorJson_some_empty]

/-- Witness for c5_content_type_gate at a concrete wrong content-type. -/
theorem c5_content_type_gate_witness :
    handlePost
      { validateConnectRequest := fun _ _ => .error (401, "unused")
        marshalGrants := fun _ => .ok "gj"
        augmentClientInfo := fun s => s
        selectRoomNode := fun _ => .ok ()
        handleParticipantConnectRequest := fun _ _ _ =>
          .ok { roomSid := "RM", participantSid := "PA" } }
      { contentType := "application/json", body := .ok [1, 2, 3] } =
      ({ status := some 400, headers := [],
         chunks := [RespChunk.errorJson 400
           (unsupportedContentTypeMsg "application/json")] },
        []) ∧
    handleParticipantPatch
      { participantTopic := fun a b => a ++ "|" ++ b
        relaySignalv2Participant := fun _ _ => .error .untyped }
      { contentType := "text/plain", grants := none, joinPermission := .ok "alpha"
        pathParticipantId := "p1", body := .ok [] } =
      ({ status := some 400, headers := [],
         chunks := [RespChunk.errorJson 400 (unsupportedContentTypeMsg "text/plain")] },
        []) := by
  exact c5_content_type_gate _ _
    { contentType := "application/json", body := .ok [1, 2, 3] }
    { contentType := "text/plain", grants := none, joinPermission := .ok "alpha"
      pathParticipantId := "p1", body := .ok [] }
    (by decide) (by decide)

/-- Claim C6: once the external validator has succeeded on a connect
request, each of the three later failure points is answered 500: grant-set
serialization failure, placement (SelectRoomNode) failure regardless of its
error text, and routing (HandleParticipantConnectRequest) failure. -/
theorem c6_post_internal_failures_500 (env : ConnectEnv) (req : PostRequest)
    (body : List Nat) (cr : ConnectRequest) (rest : List Signalv2ClientMessage)
    (srv : List Signalv2ServerMessage) (res : ValidationResult)
    (hct : req.contentType = "application/x-protobuf")
    (hb : req.body = .ok body)
    (hdec : decodeWireMessage body =
      some ⟨some (.envelope ⟨⟨some (.connectRequest cr)⟩ :: rest, srv⟩)⟩)
    (hval : env.validateConnectRequest cr.metadata cr.participantAttributes = .ok res) :
    (∀ e, env.marshalGrants res.grants = .error e →
      (handlePost env req).1 =
        { status := some 500, headers := [], chunks := [RespChunk.errorJson 500 e] }) ∧
    (∀ g e, env.marshalGrants res.grants = .ok g →
      env.selectRoomNode res.roomName = .error e →
      (handlePost env req).1 =
        { status := some 500, headers := [], chunks := [RespChunk.errorJson 500 e] }) ∧
    (∀ g e, env.marshalGrants res.grants = .ok g →
      env.selectRoomNode res.roomName = .ok () →
      env.handleParticipantConnectRequest res.roomName res.grants.identity
        { grantsJson := g, createRoom := res.createRoomRequest
          connectRequest :=
            { cr with clientInfo := env.augmentClientInfo cr.clientInfo } } = .error e →
      (handlePost env req).1 =
        { status := some 500, headers := [], chunks := [RespChunk.errorJson 500 e] }) := by
  refine ⟨?_, ?_, ?_⟩
  · intro e hm
    simp [handlePost, hct, hb, hdec, processClientMessages, validateInternal,
      hval, hm, handleErrorJson_some_empty]
  · intro g e hm hs
    simp [handlePost, hct, hb, hdec, processClientMessages, validateInternal,
      hval, hm, hs, handleErrorJson_some_empty]
  · intro g e hm hs hr
    simp [handlePost, hct, hb, hdec, processClientMessages, validateInternal,
      hval, hm, hs, hr, handleErrorJson_some_empty]

/-- Witness for c6_post_internal_failures_500: the three failure points at
concrete environments. -/
theorem c6_post_internal_failures_500_witness :
    (handlePost
      { validateConnectRequest := fun _ _ =>
          .ok { grants := { identity := "p1" }, roomName := "alpha"
                createRoomRequest := "dir" }
        marshalGrants := fun _ => .error "marshal boom"
        augmentClientInfo := fun s => s
        selectRoomNode := fun _ => .ok ()
        handleParticipantConnectRequest := fun _ _ _ =>
          .ok { roomSid := "RM", participantSid := "PA" } }
      { contentType := "application/x-protobuf"
        body := .ok (encodeWireMessage
          ⟨some (.envelope ⟨[⟨some (.connectRequest
            { metadata := "m", participantAttributes := [], clientInfo := "ci" })⟩],
            []⟩)⟩) }).1 =
      { status := some 500, headers := []
        chunks := [RespChunk.errorJson 500 "marshal boom"] } ∧
    (handlePost
      { validateConnectRequest := fun _ _ =>
          .ok { grants := { identity := "p1" }, roomName := "alpha"
                createRoomRequest := "dir" }
        marshalGrants := fun _ => .ok "gj"
        augmentClientInfo := fun s => s
        selectRoomNode := fun _ => .error "placement boom"
        handleParticipantConnectRequest := fun _ _ _ =>
          .ok { roomSid := "RM", participantSid := "PA" } }
      { contentType := "application/x-protobuf"
        body := .ok (encodeWireMessage
          ⟨some (.envelope ⟨[⟨some (.connectRequest
            { metadata := "m", participantAttributes := [], clientInfo := "ci" })⟩],
            []⟩)⟩) }).1 =
      { status := some 500, headers := []
        chunks := [RespChunk.errorJson 500 "placement boom"] } ∧
    (handlePost
      { validateConnectRequest := fun _ _ =>
          .ok { grants := { identity := "p1" }, roomName := "alpha"
                createRoomRequest := "dir" }
        marshalGrants := fun _ => .ok "gj"
        augmentClientInfo := fun s => s
        selectRoomNode := fun _ => .ok ()
        handleParticipantConnectRequest := fun _ _ _ => .error "routing boom" }
      { contentType := "application/x-protobuf"
        body := .ok (encodeWireMessage
          ⟨some (.envelope ⟨[⟨some (.connectRequest
            { metadata := "m", participantAttributes := [], clientInfo := "ci" })⟩],
            []⟩)⟩) }).1 =
      { status := some 500, headers := []
        chunks := [RespChunk.errorJson 500 "routing boom"] } := by
  refine ⟨?_, ?_, ?_⟩
  · exact (c6_post_internal_failures_500 _ _ _
      { metadata := "m", participantAttributes := [], clientInfo := "ci" } [] []
      { grants := { identity := "p1" }, roomName := "alpha", createRoomRequest := "dir" }
      rfl rfl (by decide) rfl).1 "marshal boom" rfl
  · exact (c6_post_internal_failures_500 _ _ _
      { metadata := "m", participantAttributes := [], clientInfo := "ci" } [] []
      { grants := { identity := "p1" }, roomName := "alpha", createRoomRequest := "dir" }
      rfl rfl (by decide) rfl).2.1 "gj" "placement boom" rfl rfl
  · exact (c6_post_internal_failures_500 _ _ _
      { metadata := "m", participantAttributes := [], clientInfo := "ci" } [] []
      { grants := { identity := "p1" }, roomName := "alpha", createRoomRequest := "dir" }
      rfl rfl (by decide) rfl).2.2 "gj" "routing boom" rfl rfl rfl

/-! ## Claims about the participant endpoint -/

/-- Claim C2: the authorization checks of the participant endpoint run in
the fixed source order. Missing grants or a missing video grant answer 401
PermissionDenied whatever the join permission, identity and path id are;
then a join-permission failure answers 401 with that error; then an empty
room name answers 401 NoRoomName; then an empty identity answers 401
IdentityEmpty whatever the path id is (so both empty reports IdentityEmpty);
then an empty path participant id answers 400 ParticipantSidEmpty. -/
theorem c2_patch_auth_gating_order (env : PatchEnv) (req : PatchRequest)
    (hct : req.contentType = "application/x-protobuf") :
    (req.grants = none →
      (handleParticipantPatch env req).1 =
        { status := some 401, headers := []
          chunks := [RespChunk.errorJson 401 errPermissionDenied] }) ∧
    (∀ c, req.grants = some c → c.video = none →
      (handleParticipantPatch env req).1 =
        { status := some 401, headers := []
          chunks := [RespChunk.errorJson 401 errPermissionDenied] }) ∧
    (∀ c v e, req.grants = some c → c.video = some v → req.joinPermission = .error e →
      (handleParticipantPatch env req).1 =
        { status := some 401, headers := [], chunks := [RespChunk.errorJson 401 e] }) ∧
    (∀ c v, req.grants = some c → c.video = some v → req.joinPermission = .ok "" →
      (handleParticipantPatch env req).1 =
        { status := some 401, headers := []
          chunks := [RespChunk.errorJson 401 errNoRoomName] }) ∧
    (∀ c v room, req.grants = some c → c.video = some v →
      req.joinPermission = .ok room → room ≠ "" → c.identity = "" →
      (handleParticipantPatch env req).1 =
        { status := some 401, headers := []
          chunks := [RespChunk.errorJson 401 errIdentityEmpty] }) ∧
    (∀ c v room, req.grants = some c → c.video = some v →
      req.joinPermission = .ok room → room ≠ "" → c.identity ≠ "" →
      req.pathParticipantId = "" →
      (handleParticipantPatch env req).1 =
        { status := some 400, headers := []
          chunks := [RespChunk.errorJson 400 errParticipantSidEmpty] }) := by
  refine ⟨?_, ?_, ?_, ?_, ?_, ?_⟩
  · intro hg
    simp [handleParticipantPatch, hct, hg, handleErrorJson_some_empty]
  · intro c hg hv
    simp [handleParticipantPatch, hct, hg, hv, handleErrorJson_some_empty]
  · intro c v e hg hv hj
    simp [handleParticipantPatch, hct, hg, hv, hj, handleErrorJson_some_empty]
  · intro c v hg hv hj
    simp [handleParticipantPatch, hct, hg, hv, hj, handleErrorJson_some_empty]
  · intro c v room hg hv hj hroom hid
    simp [handleParticipantPatch, hct, hg, hv, hj, hroom, hid, handleErrorJson_some_empty]
  · intro c v room hg hv hj hroom hid hpid
    simp [handleParticipantPatch, hct, hg, hv, hj, hroom, hid, hpid,
      handleErrorJson_some_empty]

/-- Witness for c2_patch_auth_gating_order: each gate at a concrete
request, including the request with both empty identity and empty path id,
which reports IdentityEmpty. -/
theorem c2_patch_auth_gating_order_witness :
    (handleParticipantPatch
      { participantTopic := fun a b => a ++ "|" ++ b
        relaySignalv2Participant := fun _ _ => .error .untyped }
      { contentType := "application/x-protobuf", grants := none
        joinPermission := .ok "alpha", pathParticipantId := "p1", body := .ok [] }).1 =
      { status := some 401, headers := []
        chunks := [RespChunk.errorJson 401 errPermissionDenied] } ∧
    (handleParticipantPatch
      { participantTopic := fun a b => a ++ "|" ++ b
        relaySignalv2Participant := fun _ _ => .error .untyped }
      { contentType := "application/x-protobuf"
        grants := some { identity := "id", video := none }
        joinPermission := .ok "alpha", pathParticipantId := "p1", body := .ok [] }).1 =
      { status := some 401, headers := []
        chunks := [RespChunk.errorJson 401 errPermissionDenied] } ∧
    (handleParticipantPatch
      { participantTopic := fun a b => a ++ "|" ++ b
        relaySignalv2Participant := fun _ _ => .error .untyped }
      { contentType := "application/x-protobuf"
        grants := some { identity := "id", video := some { room := "alpha" } }
        joinPermission := .error "join denied", pathParticipantId := "p1"
        body := .ok [] }).1 =
      { status := some 401, headers := []
        chunks := [RespChunk.errorJson 401 "join denied"] } ∧
    (handleParticipantPatch
      { participantTopic := fun a b => a ++ "|" ++ b
        relaySignalv2Participant := fun _ _ => .error .untyped }
      { contentType := "application/x-protobuf"
        grants := some { identity := "id", video := some { room := "alpha" } }
        joinPermission := .ok "", pathParticipantId := "p1", body := .ok [] }).1 =
      { status := some 401, headers := []
        chunks := [RespChunk.errorJson 401 errNoRoomName] } ∧
    (handleParticipantPatch
      { participantTopic := fun a b => a ++ "|" ++ b
        relaySignalv2Participant := fun _ _ => .error .untyped }
      { contentType := "application/x-protobuf"
        grants := some { identity := "", video := some { room := "alpha" } }
        joinPermission := .ok "alpha", pathParticipantId := "", body := .ok [] }).1 =
      { status := some 401, headers := []
        chunks := [RespChunk.errorJson 401 errIdentityEmpty] } ∧
    (handleParticipantPatch
      { participantTopic := fun a b => a ++ "|" ++ b
        relaySignalv2Participant := fun _ _ => .error .untyped }
      { contentType := "application/x-protobuf"
        grants := some { identity := "id", video := some { room := "alpha" } }
        joinPermission := .ok "alpha", pathParticipantId := "", body := .ok [] }).1 =
      { status := some 400, headers := []
        chunks := [RespChunk.errorJson 400 errParticipantSidEmpty] } := by
  refine ⟨?_, ?_, ?_, ?_, ?_, ?_⟩
  · exact (c2_patch_auth_gating_order _ _ rfl).1 rfl
  · exact (c2_patch_auth_gating_order _ _ rfl).2.1
      { identity := "id", video := none } rfl rfl
  · exact (c2_patch_auth_gating_order _ _ rfl).2.2.1
      { identity := "id", video := some { room := "alpha" } }
      { room := "alpha" } "join denied" rfl rfl rfl
  · exact (c2_patch_auth_gating_order _ _ rfl).2.2.2.1
      { identity := "id", video := some { room := "alpha" } }
      { room := "alpha" } rfl rfl rfl
  · exact (c2_patch_auth_gating_order _ _ rfl).2.2.2.2.1
      { identity := "", video := some { room := "alpha" } }
      { room := "alpha" } "alpha" rfl rfl rfl (by decide) rfl
  · exact (c2_patch_auth_gating_order _ _ rfl).2.2.2.2.2
      { identity := "id", video := some { room := "alpha" } }
      { room := "alpha" } "alpha" rfl rfl rfl (by decide) (by decide) rfl

/-- Claim C3: failures of the participant relay RPC map NotFound to 404,
InvalidArgument to 400 and every other code to 500, forwarding the error
text of the psrpc error; an untyped failure maps to 500 with the generic
internal-error message substituted for the nil error. -/
theorem c3_patch_rpc_error_mapping (env : PatchEnv) (req : PatchRequest)
    (claims : ClaimGrants) (v : VideoGrant) (room : String) (body : List Nat)
    (wm : Signalv2WireMessage)
    (hct : req.contentType = "application/x-protobuf")
    (hg : req.grants = some claims) (hv : claims.video = some v)
    (hj : req.joinPermission = .ok room) (hroom : room ≠ "")
    (hid : claims.identity ≠ "") (hpid : req.pathParticipantId ≠ "")
    (hb : req.body = .ok body) (hdec : decodeWireMessage body = some wm) :
    (∀ msg, env.relaySignalv2Participant (env.participantTopic room claims.identity)
        { room := room, participantIdentity := claims.identity
          participantId := req.pathParticipantId, wireMessage := wm } =
        .error (.typed .notFound msg) →
      (handleParticipantPatch env req).1 =
        { status := some 404, headers := [], chunks := [RespChunk.errorJson 404 msg] }) ∧
    (∀ msg, env.relaySignalv2Participant (env.participantTopic room claims.identity)
        { room := room, participantIdentity := claims.identity
          participantId := req.pathParticipantId, wireMessage := wm } =
        .error (.typed .invalidArgument msg) →
      (handleParticipantPatch env req).1 =
        { status := some 400, headers := [], chunks := [RespChunk.errorJson 400 msg] }) ∧
    (∀ name msg, env.relaySignalv2Participant (env.participantTopic room claims.identity)
        { room := room, participantIdentity := claims.identity
          participantId := req.pathParticipantId, wireMessage := wm } =
        .error (.typed (.other name) msg) →
      (handleParticipantPatch env req).1 =
        { status := some 500, headers := [], chunks := [RespChunk.errorJson 500 msg] }) ∧
    (env.relaySignalv2Participant (env.participantTopic room claims.identity)
        { room := room, participantIdentity := claims.identity
          participantId := req.pathParticipantId, wireMessage := wm } =
        .error .untyped →
      (handleParticipantPatch env req).1 =
        { status := some 500, headers := []
          chunks := [RespChunk.errorJson 500 genericInternalErrorMessage] }) := by
  refine ⟨?_, ?_, ?_, ?_⟩
  · intro msg hrpc
    simp [handleParticipantPatch, hct, hg, hv, hj, hroom, hid, hpid, hb, hdec, hrpc,
      handleErrorJson_some_empty]
  · intro msg hrpc
    simp [handleParticipantPatch, hct, hg, hv, hj, hroom, hid, hpid, hb, hdec, hrpc,
      handleErrorJson_some_empty]
  · intro name msg hrpc
    simp [handleParticipantPatch, hct, hg, hv, hj, hroom, hid, hpid, hb, hdec, hrpc,
      handleErrorJson_some_empty]
  · intro hrpc
    simp [handleParticipantPatch, hct, hg, hv, hj, hroom, hid, hpid, hb, hdec, hrpc,
      handleErrorJson_none_empty]

/-- Witness for c3_patch_rpc_error_mapping: the four failure shapes at
concrete environments. -/
theorem c3_patch_rpc_error_mapping_witness :
    (handleParticipantPatch
      { participantTopic := fun a b => a ++ "|" ++ b
        relaySignalv2Participant := fun _ _ => .error (.typed .notFound "missing") }
      { contentType := "application/x-protobuf"
        grants := some { identity := "id", video := some { room := "alpha" } }
        joinPermission := .ok "alpha", pathParticipantId := "p1", body := .ok [] }).1 =
      { status := some 404, headers := []
        chunks := [RespChunk.errorJson 404 "missing"] } ∧
    (handleParticipantPatch
      { participantTopic := fun a b => a ++ "|" ++ b
        relaySignalv2Participant := fun _ _ => .error (.typed .invalidArgument "bad") }
      { contentType := "application/x-protobuf"
        grants := some { identity := "id", video := some { room := "alpha" } }
        joinPermission := .ok "alpha", pathParticipantId := "p1", body := .ok [] }).1 =
      { status := some 400, headers := [], chunks := [RespChunk.errorJson 400 "bad"] } ∧
    (handleParticipantPatch
      { participantTopic := fun a b => a ++ "|" ++ b
        relaySignalv2Participant := fun _ _ =>
          .error (.typed (.other "Unavailable") "down") }
      { contentType := "application/x-protobuf"
        grants := some { identity := "id", video := some { room := "alpha" } }
        joinPermission := .ok "alpha", pathParticipantId := "p1", body := .ok [] }).1 =
      { status := some 500, headers := [], chunks := [RespChunk.errorJson 500 "down"] } ∧
    (handleParticipantPatch
      { participantTopic := fun a b => a ++ "|" ++ b
        relaySignalv2Participant := fun _ _ => .error .untyped }
      { contentType := "application/x-protobuf"
        grants := some { identity := "id", video := some { room := "alpha" } }
        joinPermission := .ok "alpha", pathParticipantId := "p1", body := .ok [] }).1 =
      { status := some 500, headers := []
        chunks := [RespChunk.errorJson 500 genericInternalErrorMessage] } := by
  refine ⟨?_, ?_, ?_, ?_⟩
  · exact (c3_patch_rpc_error_mapping _ _
      { identity := "id", video := some { room := "alpha" } } { room := "alpha" }
      "alpha" [] ⟨none⟩ rfl rfl rfl rfl (by decide) (by decide) (by decide)
      rfl rfl).1 "missing" rfl
  · exact (c3_patch_rpc_error_mapping _ _
      { identity := "id", video := some { room := "alpha" } } { room := "alpha" }
      "alpha" [] ⟨none⟩ rfl rfl rfl rfl (by decide) (by decide) (by decide)
      rfl rfl).2.1 "bad" rfl
  · exact (c3_patch_rpc_error_mapping _ _
      { identity := "id", video := some { room := "alpha" } } { room := "alpha" }
      "alpha" [] ⟨none⟩ rfl rfl rfl rfl (by decide) (by decide) (by decide)
      rfl rfl).2.2.1 "Unavailable" "down" rfl
  · exact (c3_patch_rpc_error_mapping _ _
      { identity := "id", video := some { room := "alpha" } } { room := "alpha" }
      "alpha" [] ⟨none⟩ rfl rfl rfl rfl (by decide) (by decide) (by decide)
      rfl rfl).2.2.2 rfl

/-- Claim C7: an authorized PATCH whose body decodes to any wire message
(a top-level Fragment included) forwards it unchanged in the relay request,
and when the RPC answers with a response carrying wire message X the reply
is 200 with body encode(X). The RPC collaborator is constrained only at the
relay request built from the decoded message, so the conclusion certifies
that the handler calls it with exactly that request. -/
theorem c7_patch_relay_success (env : PatchEnv) (req : PatchRequest)
    (claims : ClaimGrants) (v : VideoGrant) (room : String) (body : List Nat)
    (wm X : Signalv2WireMessage)
    (hct : req.contentType = "application/x-protobuf")
    (hg : req.grants = some claims) (hv : claims.video = some v)
    (hj : req.joinPermission = .ok room) (hroom : room ≠ "")
    (hid : claims.identity ≠ "") (hpid : req.pathParticipantId ≠ "")
    (hb : req.body = .ok body) (hdec : decodeWireMessage body = some wm)
    (hrpc : env.relaySignalv2Participant (env.participantTopic room claims.identity)
        { room := room, participantIdentity := claims.identity
          participantId := req.pathParticipantId, wireMessage := wm } =
        .ok { wireMessage := X }) :
    (handleParticipantPatch env req).1 =
      { status := some 200
        headers := [("Content-type", "application/x-protobuf")]
        chunks := [RespChunk.proto (encodeWireMessage X)] } := by
  simp [handleParticipantPatch, hct, hg, hv, hj, hroom, hid, hpid, hb, hdec, hrpc,
    write, addHeader, writeHeader]

/-- Witness for c7_patch_relay_success: a concrete authorized PATCH whose
body is a top-level Fragment, relayed unchanged and answered with the
encoded response wire message. -/
theorem c7_patch_relay_success_witness :
    (handleParticipantPatch
      { participantTopic := fun a b => a ++ "|" ++ b
        relaySignalv2Participant := fun _ rq =>
          if rq.wireMessage = ⟨some (.fragment ⟨[9, 9]⟩)⟩ then
            .ok { wireMessage := ⟨some (.envelope ⟨[], [⟨some (.other "resp")⟩]⟩)⟩ }
          else
            .error .untyped }
      { contentType := "application/x-protobuf"
        grants := some { identity := "id", video := some { room := "alpha" } }
        joinPermission := .ok "alpha", pathParticipantId := "p1"
        body := .ok (encodeWireMessage ⟨some (.fragment ⟨[9, 9]⟩)⟩) }).1 =
      { status := some 200
        headers := [("Content-type", "application/x-protobuf")]
        chunks := [RespChunk.proto
          (encodeWireMessage ⟨some (.envelope ⟨[], [⟨some (.other "resp")⟩]⟩)⟩)] } := by
  exact c7_patch_relay_success _ _
    { identity := "id", video := some { room := "alpha" } } { room := "alpha" }
    "alpha" (encodeWireMessage ⟨some (.fragment ⟨[9, 9]⟩)⟩)
    ⟨some (.fragment ⟨[9, 9]⟩)⟩ ⟨some (.envelope ⟨[], [⟨some (.other "resp")⟩]⟩)⟩
    rfl rfl rfl rfl (by decide) (by decide) (by decide) rfl (by decide) rfl

/-! ## Claim C1: envelope processing after a committed error -/

/-- Claim C1 (evaluation at the failing input): with a fully successful
environment, an envelope whose first client message is an unknown variant
and whose second is a valid ConnectRequest is answered with the 400
UnknownMessageType error body, after which the loop still processes the
second message and appends its relay connect response to the same reply
(the committed status stays 400; the trailing WriteHeader of 200 is
superfluous). This contradicts the stated property that no later client
message is processed once a terminal error is committed. -/
theorem c1_later_message_processed_after_error :
    handlePost
      { validateConnectRequest := fun _ _ =>
          .ok { grants := { identity := "p1" }, roomName := "alpha"
                createRoomRequest := "dir" }
        marshalGrants := fun _ => .ok "gj"
        augmentClientInfo := fun s => s ++ "+aug"
        selectRoomNode := fun _ => .ok ()
        handleParticipantConnectRequest := fun _ _ _ =>
          .ok { roomSid := "RM", participantSid := "PA" } }
      { contentType := "application/x-protobuf"
        body := .ok (encodeWireMessage
          ⟨some (.envelope
            ⟨[⟨some (.other "livekit.FakeType")⟩,
              ⟨some (.connectRequest
                { metadata := "m", participantAttributes := [], clientInfo := "ci" })⟩],
              []⟩)⟩) } =
      ({ status := some 400
         headers := [("Content-type", "application/x-protobuf")]
         chunks := [RespChunk.errorJson 400 (errUnknownMessageTypeMsg "livekit.FakeType"),
           RespChunk.proto (encodeWireMessage
             (connectResponseWireMessage { roomSid := "RM", participantSid := "PA" }))] },
        [Event.readBody, Event.unmarshal]) := by
  decide

end RTCv2
